import Mathlib

/-
Verification of the gowaveform waveform-plotting script
(src/cmd/gowaveform/plot_waveform.py), as a shallow embedding in Lean 4.

Numbers from the JSON input are modelled as rationals (ℚ); Python integer
floor-division `//` on nonnegative lengths is Nat division; Python
`range(start, stop, step)` with a positive step is modelled by `pyRange`.
-/

namespace Gowaveform

/-- A JSON value, as produced by `json.load`.  Numbers are modelled as
rationals, objects as association lists with distinct keys (Python dicts). -/
inductive Json where
  | null : Json
  | boolean : Bool → Json
  | num : ℚ → Json
  | str : String → Json
  | arr : List Json → Json
  | obj : List (String × Json) → Json

/-- Python `isinstance(x, dict)`. -/
def Json.isDict : Json → Bool
  | .obj _ => true
  | _ => false

/-- Python `isinstance(x, list)`. -/
def Json.isList : Json → Bool
  | .arr _ => true
  | _ => false

/-- Python `k in d` / `d[k]` combined: look a key up in a JSON object. -/
def Json.lookupKey : Json → String → Option Json
  | .obj fields, k => fields.lookup k
  | _, _ => none

/-- Python `len` of a JSON array (0 on non-arrays; the script only calls it
on values it has checked to be lists). -/
def Json.arrLen : Json → Nat
  | .arr xs => xs.length
  | _ => 0

/-- The validation block of `main` (plot_waveform.py lines 110-125): four
checks in order, each failure printing one stderr line and exiting with
status 1, modelled as `Except` whose error carries (exit code, stderr line). -/
def validateData (j : Json) : Except (Nat × String) Json :=
  if ¬ j.isDict then
    .error (1, "Error: JSON data must be an object")
  else
    match j.lookupKey "data" with
    | none => .error (1, "Error: JSON data must contain \x27data\x27 field")
    | some d =>
      if ¬ d.isList then
        .error (1, "Error: \x27data\x27 field must be an array")
      else if d.arrLen = 0 then
        .error (1, "Error: \x27data\x27 field is empty")
      else
        .ok j

/-- Outcome of opening and JSON-parsing the file named on the command line:
the file may be missing (`FileNotFoundError`), it may exist but be unreadable
(permission denied), its content may fail to parse (`json.JSONDecodeError`,
with its diagnostic string), or parsing succeeds. -/
inductive LoadOutcome where
  | fileNotFound : LoadOutcome
  | unreadable : LoadOutcome
  | badJson : String → LoadOutcome
  | parsed : Json → LoadOutcome

/-- The file-reading branch of `main` (plot_waveform.py lines 90-101):
given the file name and the outcome of reading/parsing it, either the parsed
JSON or (exit code 1, stderr line).  Only `FileNotFoundError` and
`json.JSONDecodeError` are caught; for an existing but unreadable file the
`PermissionError` escapes `main`, and the interpreter exits with status 1
printing a traceback whose final stderr line is
`PermissionError: [Errno 13] Permission denied: '<path>'` — that final line
stands for the traceback here. -/
def loadFromFile (filename : String) : LoadOutcome → Except (Nat × String) Json
  | .fileNotFound =>
      .error (1, "Error: File \x27" ++ filename ++ "\x27 not found")
  | .unreadable =>
      .error (1, "PermissionError: [Errno 13] Permission denied: \x27" ++ filename ++ "\x27")
  | .badJson diag =>
      .error (1, "Error: Invalid JSON in file \x27" ++ filename ++ "\x27: " ++ diag)
  | .parsed j => .ok j

/-- Whether the second character list is a prefix of the first. -/
def startsWithChars (hay needle : List Char) : Bool :=
  match needle, hay with
  | [], _ => true
  | _ :: _, [] => false
  | n :: ns, c :: cs => (c == n) && startsWithChars cs ns

/-- Whether the second character list occurs contiguously inside the first:
the decidable reading of "the text mentions ...". -/
def containsChars : List Char → List Char → Bool
  | [], needle => needle.isEmpty
  | c :: rest, needle => startsWithChars (c :: rest) needle || containsChars rest needle

/-- A waveform document as `plot_waveform` consumes it: a dict whose four
relevant keys may each be absent (`Option`), with numeric values as ℚ.
`data.get(key, default)` becomes `Option.getD`. -/
structure WaveformDocument where
  sample_rate : Option ℚ
  samples_per_pixel : Option ℚ
  channels : Option ℤ
  data : Option (List ℚ)

/-- Everything `plot_waveform` hands to the plotly collaborator that the
spec talks about: the shared x axis, the two y series, and the title. -/
structure EnvelopePlot where
  time_axis : List ℚ
  min_values : List ℚ
  max_values : List ℚ
  title : String

/-- Python `range(start, stop, step)` for a positive `step`: the list
`[start, start+step, ...)` of all such values below `stop`; its length is
`⌈(stop-start)/step⌉` (0 when `stop ≤ start`, by Nat subtraction). -/
def pyRange (start stop step : Nat) : List Nat :=
  (List.range ((stop - start + step - 1) / step)).map (fun i => start + i * step)

/-- `channels = data.get('channels', 1)` (plot_waveform.py line 22). -/
def channelsOf (d : WaveformDocument) : ℤ :=
  d.channels.getD 1

/-- `num_pixels = len(waveform_data) // 2` (plot_waveform.py line 28). -/
def numPixels (d : WaveformDocument) : Nat :=
  (d.data.getD []).length / 2

/-- The data-transformation part of `plot_waveform` (plot_waveform.py lines
12-65): metadata extraction with defaults, the time axis, the two
comprehensions over even and odd indices, and the title string. -/
def plot_waveform (d : WaveformDocument) : EnvelopePlot :=
  let sample_rate : ℚ := d.sample_rate.getD 44100
  let samples_per_pixel : ℚ := d.samples_per_pixel.getD 256
  let channels : ℤ := channelsOf d
  let waveform_data : List ℚ := d.data.getD []
  let time_per_pixel : ℚ := samples_per_pixel / sample_rate
  let num_pixels : Nat := waveform_data.length / 2
  let time_axis : List ℚ := (List.range num_pixels).map (fun i : Nat => (i : ℚ) * time_per_pixel)
  let min_values : List ℚ := (pyRange 0 waveform_data.length 2).map (fun i => waveform_data.getD i 0)
  let max_values : List ℚ := (pyRange 1 waveform_data.length 2).map (fun i => waveform_data.getD i 0)
  { time_axis := time_axis
    min_values := min_values
    max_values := max_values
    title := "Waveform Visualization<br><sub>Sample Rate: " ++ toString sample_rate
      ++ " Hz | Samples per Pixel: " ++ toString samples_per_pixel
      ++ " | Channels: " ++ toString channels ++ "</sub>" }

/-- The points a plotly `Scatter` trace with explicit `x` and `y` arrays
actually draws: pairs up to the shorter of the two arrays. -/
def tracePoints (xs ys : List ℚ) : List (ℚ × ℚ) :=
  xs.zip ys

/-! ### Helper lemmas about the index ranges -/

/-- `range(0, n, 2)` is `2*i` for `i < ⌈n/2⌉`. -/
lemma pyRange_even (n : Nat) :
    pyRange 0 n 2 = (List.range ((n + 1) / 2)).map (fun i => 2 * i) := by
  unfold pyRange
  apply List.map_congr_left
  intro a _
  omega

/-- `range(1, n, 2)` is `2*i + 1` for `i < ⌊n/2⌋`. -/
lemma pyRange_odd (n : Nat) :
    pyRange 1 n 2 = (List.range (n / 2)).map (fun i => 2 * i + 1) := by
  unfold pyRange
  have hlen : (n - 1 + 2 - 1) / 2 = n / 2 := by omega
  rw [hlen]
  apply List.map_congr_left
  intro a _
  omega

/-- Closed form of the `min_values` comprehension. -/
lemma min_values_eq (d : WaveformDocument) :
    (plot_waveform d).min_values =
      (List.range (((d.data.getD []).length + 1) / 2)).map
        (fun i => (d.data.getD []).getD (2 * i) 0) := by
  simp [plot_waveform, pyRange_even, List.map_map, Function.comp]

/-- Closed form of the `max_values` comprehension. -/
lemma max_values_eq (d : WaveformDocument) :
    (plot_waveform d).max_values =
      (List.range ((d.data.getD []).length / 2)).map
        (fun i => (d.data.getD []).getD (2 * i + 1) 0) := by
  simp [plot_waveform, pyRange_odd, List.map_map, Function.comp]

/-- Closed form of the time axis. -/
lemma time_axis_eq (d : WaveformDocument) :
    (plot_waveform d).time_axis =
      (List.range (numPixels d)).map
        (fun i : Nat => (i : ℚ) * (d.samples_per_pixel.getD 256 / d.sample_rate.getD 44100)) := by
  simp [plot_waveform, numPixels]

/-- A list starts with itself followed by anything. -/
lemma startsWithChars_append (n s : List Char) :
    startsWithChars (n ++ s) n = true := by
  induction n with
  | nil => simp [startsWithChars]
  | cons c cs ih => simp [startsWithChars, ih]

/-- `containsChars` finds a needle sitting at the front. -/
lemma containsChars_append_left (n s : List Char) :
    containsChars (n ++ s) n = true := by
  cases n with
  | nil => cases s <;> simp [containsChars, startsWithChars]
  | cons c cs =>
    have h := startsWithChars_append (c :: cs) s
    simp only [List.cons_append] at h
    simp [containsChars, h]

/-- `containsChars` finds a needle that literally occurs between two parts. -/
lemma containsChars_of_append (p n s : List Char) :
    containsChars (p ++ n ++ s) n = true := by
  induction p with
  | nil => simpa using containsChars_append_left n s
  | cons c cs ih =>
    simp only [List.cons_append, containsChars, Bool.or_eq_true]
    exact Or.inr ih

/-! ### Claims -/

/-- C1, counterexample: for `data = [0]` (length `2k+1` with `k = 0`), the claim
says `min_values` has exactly `k = 0` entries, but the code keeps the trailing
unpaired element in `min_values`, which has 1 entry while `num_pixels = 0`. -/
theorem C1_counterexample :
    numPixels ⟨none, none, none, some [0]⟩ = 0 ∧
    (plot_waveform ⟨none, none, none, some [0]⟩).min_values.length = 1 :=
  ⟨rfl, rfl⟩

/-- C1, amended: the transformer computes `num_pixels = ⌊len(data)/2⌋`, and
`time_axis` and `max_values` each have exactly `num_pixels` entries, but
`min_values` has `⌈len(data)/2⌉` entries: an odd trailing element of `data`
is kept as a final extra entry of `min_values` (it is only dropped from the
drawn trace by the pairing against the shorter `time_axis`), so for data of
length `2k+1`, `min_values` has `k + 1` entries. -/
theorem C1_amended_lengths (d : WaveformDocument) :
    numPixels d = (d.data.getD []).length / 2 ∧
    (plot_waveform d).time_axis.length = numPixels d ∧
    (plot_waveform d).max_values.length = numPixels d ∧
    (plot_waveform d).min_values.length = ((d.data.getD []).length + 1) / 2 := by
  refine ⟨rfl, ?_, ?_, ?_⟩
  · rw [time_axis_eq]; simp only [List.length_map, List.length_range]
  · rw [max_values_eq]; simp only [List.length_map, List.length_range, numPixels]
  · rw [min_values_eq]; simp only [List.length_map, List.length_range]

/-- C2: for every document and every `i < num_pixels`,
`min_values[i] = data[2*i]` and `max_values[i] = data[2*i+1]`. -/
theorem C2_envelope_indexing (d : WaveformDocument) (i : Nat)
    (h : i < numPixels d) :
    (plot_waveform d).min_values.getD i 0 = (d.data.getD []).getD (2 * i) 0 ∧
    (plot_waveform d).max_values.getD i 0 = (d.data.getD []).getD (2 * i + 1) 0 := by
  have hmax : i < (d.data.getD []).length / 2 := h
  have hmin : i < ((d.data.getD []).length + 1) / 2 := by omega
  constructor
  · rw [min_values_eq]
    simp [List.getD_eq_getElem?_getD, List.getElem?_map, List.getElem?_range hmin]
  · rw [max_values_eq]
    simp [List.getD_eq_getElem?_getD, List.getElem?_map, List.getElem?_range hmax]

/-- C2, witness at `data = [1, 2, 3, 4]`, `i = 1`. -/
theorem C2_envelope_indexing_witness :
    1 < numPixels ⟨none, none, none, some [1, 2, 3, 4]⟩ ∧
    ((plot_waveform ⟨none, none, none, some [1, 2, 3, 4]⟩).min_values.getD 1 0 =
        ((some [1, 2, 3, 4] : Option (List ℚ)).getD []).getD (2 * 1) 0 ∧
      (plot_waveform ⟨none, none, none, some [1, 2, 3, 4]⟩).max_values.getD 1 0 =
        ((some [1, 2, 3, 4] : Option (List ℚ)).getD []).getD (2 * 1 + 1) 0) :=
  ⟨by decide, C2_envelope_indexing ⟨none, none, none, some [1, 2, 3, 4]⟩ 1 (by decide)⟩

/-- C3: for a document whose `data` has even length `2n`, the transformer
produces exactly `n` time points, `n` min values and `n` max values. -/
theorem C3_even_length_counts (d : WaveformDocument) (n : Nat)
    (h : (d.data.getD []).length = 2 * n) :
    (plot_waveform d).time_axis.length = n ∧
    (plot_waveform d).min_values.length = n ∧
    (plot_waveform d).max_values.length = n := by
  refine ⟨?_, ?_, ?_⟩
  · rw [time_axis_eq]
    simp only [List.length_map, List.length_range, numPixels, h]
    omega
  · rw [min_values_eq]
    simp only [List.length_map, List.length_range, h]
    omega
  · rw [max_values_eq]
    simp only [List.length_map, List.length_range, h]
    omega

/-- C3, witness at `data = [1, 2, 3, 4]`, `n = 2`. -/
theorem C3_even_length_counts_witness :
    ((some [1, 2, 3, 4] : Option (List ℚ)).getD []).length = 2 * 2 ∧
    ((plot_waveform ⟨none, none, none, some [1, 2, 3, 4]⟩).time_axis.length = 2 ∧
      (plot_waveform ⟨none, none, none, some [1, 2, 3, 4]⟩).min_values.length = 2 ∧
      (plot_waveform ⟨none, none, none, some [1, 2, 3, 4]⟩).max_values.length = 2) :=
  ⟨by decide, C3_even_length_counts ⟨none, none, none, some [1, 2, 3, 4]⟩ 2 (by decide)⟩

/-- C4: `time_axis[i] = i * samples_per_pixel / sample_rate` for every
`i < num_pixels`, and `time_axis[0] = 0` (the time axis is non-empty here
since `i < num_pixels` forces `num_pixels > 0`). -/
theorem C4_time_axis_values (d : WaveformDocument) (i : Nat)
    (h : i < numPixels d) :
    (plot_waveform d).time_axis.getD i 0 =
      (i : ℚ) * (d.samples_per_pixel.getD 256) / (d.sample_rate.getD 44100) ∧
    (plot_waveform d).time_axis.getD 0 0 = 0 := by
  have h0 : 0 < numPixels d := by omega
  constructor
  · rw [time_axis_eq]
    simp only [List.getD_eq_getElem?_getD, List.getElem?_map, List.getElem?_range h,
      Option.map_some', Option.getD_some]
    rw [mul_div_assoc]
  · rw [time_axis_eq]
    simp only [List.getD_eq_getElem?_getD, List.getElem?_map, List.getElem?_range h0,
      Option.map_some', Option.getD_some, Nat.cast_zero, zero_mul]

/-- C4, witness at `data = [1, 2, 3, 4]`, `i = 1`. -/
theorem C4_time_axis_values_witness :
    1 < numPixels ⟨none, none, none, some [1, 2, 3, 4]⟩ ∧
    ((plot_waveform ⟨none, none, none, some [1, 2, 3, 4]⟩).time_axis.getD 1 0 =
        (1 : ℚ) * ((none : Option ℚ).getD 256) / ((none : Option ℚ).getD 44100) ∧
      (plot_waveform ⟨none, none, none, some [1, 2, 3, 4]⟩).time_axis.getD 0 0 = 0) :=
  ⟨by decide, C4_time_axis_values ⟨none, none, none, some [1, 2, 3, 4]⟩ 1 (by decide)⟩

/-- C5: the four validation checks run in order — object, has a `data` key,
`data` is an array, `data` is non-empty — and the first failing check yields
exit status 1 with exactly the corresponding stderr message; when all four
pass, validation succeeds. -/
theorem C5_validation_order (j : Json) :
    (j.isDict = false →
      validateData j = .error (1, "Error: JSON data must be an object")) ∧
    (j.isDict = true → j.lookupKey "data" = none →
      validateData j = .error (1, "Error: JSON data must contain \x27data\x27 field")) ∧
    (∀ d, j.lookupKey "data" = some d → d.isList = false →
      validateData j = .error (1, "Error: \x27data\x27 field must be an array")) ∧
    (∀ d, j.lookupKey "data" = some d → d.isList = true → d.arrLen = 0 →
      validateData j = .error (1, "Error: \x27data\x27 field is empty")) ∧
    (∀ d, j.lookupKey "data" = some d → d.isList = true → d.arrLen ≠ 0 →
      validateData j = .ok j) := by
  have hdict : ∀ d, j.lookupKey "data" = some d → j.isDict = true := by
    intro d hd
    cases j <;> simp_all [Json.lookupKey, Json.isDict]
  refine ⟨?_, ?_, ?_, ?_, ?_⟩
  · intro h
    simp [validateData, h]
  · intro h hnone
    simp [validateData, h, hnone]
  · intro d hd hl
    simp [validateData, hdict d hd, hd, hl]
  · intro d hd hl hlen
    simp [validateData, hdict d hd, hd, hl, hlen]
  · intro d hd hl hlen
    simp [validateData, hdict d hd, hd, hl, hlen]

/-- C5, witness: a bare JSON array fails the first check with the
"must be an object" message and exit status 1. -/
theorem C5_validation_order_witness :
    validateData (Json.arr []) = .error (1, "Error: JSON data must be an object") :=
  (C5_validation_order (Json.arr [])).1 rfl

/-- C6, counterexample: the claim also covers UNREADABLE files, but only
`FileNotFoundError` is caught (plot_waveform.py line 96): for an existing
but unreadable file the uncaught `PermissionError` ends the process with a
diagnostic that names the file but nowhere contains "not found", so the
claim fails as stated. -/
theorem C6_counterexample :
    loadFromFile "waveform.json" LoadOutcome.unreadable =
      .error (1, "PermissionError: [Errno 13] Permission denied: \x27waveform.json\x27") ∧
    ¬ ∃ pre post,
        "PermissionError: [Errno 13] Permission denied: \x27waveform.json\x27" =
          pre ++ "not found" ++ post := by
  refine ⟨rfl, ?_⟩
  rintro ⟨pre, post, h⟩
  have hc : containsChars
      "PermissionError: [Errno 13] Permission denied: \x27waveform.json\x27".data
      "not found".data = true := by
    rw [h]
    simpa [String.data_append] using
      containsChars_of_append pre.data "not found".data post.data
  exact absurd hc (by decide)

/-- C6, amended: a MISSING input file makes the program exit with status 1
and a stderr line that mentions the file name and the words "not found"; an
existing but unreadable file instead surfaces as an uncaught
`PermissionError` (see the counterexample). -/
theorem C6_missing_file (filename : String) :
    loadFromFile filename .fileNotFound =
      .error (1, "Error: File \x27" ++ filename ++ "\x27 not found") ∧
    (∃ pre post,
      "Error: File \x27" ++ filename ++ "\x27 not found" = pre ++ filename ++ post) ∧
    (∃ pre,
      "Error: File \x27" ++ filename ++ "\x27 not found" = pre ++ "not found") := by
  refine ⟨rfl, ⟨"Error: File \x27", "\x27 not found", rfl⟩,
    ⟨"Error: File \x27" ++ filename ++ "\x27 ", ?_⟩⟩
  conv_rhs => rw [String.append_assoc]
  rfl

/-- C7: Scenario A — on `{"data": [0.1, 0.3, -0.2, 0.25]}` with all other
fields absent (defaults 44100 and 256), the transformer yields
`time_axis = [0, 256/44100]`, `min_values = [0.1, -0.2]`,
`max_values = [0.3, 0.25]`. -/
theorem C7_scenario_a :
    (plot_waveform ⟨none, none, none, some [1/10, 3/10, -2/10, 25/100]⟩).time_axis =
      [0, 256/44100] ∧
    (plot_waveform ⟨none, none, none, some [1/10, 3/10, -2/10, 25/100]⟩).min_values =
      [1/10, -2/10] ∧
    (plot_waveform ⟨none, none, none, some [1/10, 3/10, -2/10, 25/100]⟩).max_values =
      [3/10, 25/100] := by
  refine ⟨?_, ?_, ?_⟩ <;> (simp [plot_waveform, pyRange, List.range_succ]; try norm_num)

/-- C8: `data` of length 1 (odd) yields `num_pixels = 0`: the time axis and
`max_values` are empty, and both drawn traces pair no points (an empty plot);
the transformer is a total function, so it cannot crash. -/
theorem C8_single_element (sr spp : Option ℚ) (ch : Option ℤ) (x : ℚ) :
    numPixels ⟨sr, spp, ch, some [x]⟩ = 0 ∧
    (plot_waveform ⟨sr, spp, ch, some [x]⟩).time_axis = [] ∧
    (plot_waveform ⟨sr, spp, ch, some [x]⟩).max_values = [] ∧
    tracePoints (plot_waveform ⟨sr, spp, ch, some [x]⟩).time_axis
      (plot_waveform ⟨sr, spp, ch, some [x]⟩).min_values = [] ∧
    tracePoints (plot_waveform ⟨sr, spp, ch, some [x]⟩).time_axis
      (plot_waveform ⟨sr, spp, ch, some [x]⟩).max_values = [] := by
  have h0 : numPixels ⟨sr, spp, ch, some [x]⟩ = 0 := by simp [numPixels]
  have ht : (plot_waveform ⟨sr, spp, ch, some [x]⟩).time_axis = [] := by
    rw [time_axis_eq, h0]; rfl
  have hm : (plot_waveform ⟨sr, spp, ch, some [x]⟩).max_values = [] := by
    rw [max_values_eq]; simp
  exact ⟨h0, ht, hm, by simp [tracePoints, ht], by simp [tracePoints, ht]⟩

/-- C9: the transformation is pure — transforming the same document twice
yields identical EnvelopePlot values; in this embedding `plot_waveform` is a
function of the document alone, with no other state. -/
theorem C9_pure_transformation (d : WaveformDocument) :
    plot_waveform d = plot_waveform d := rfl

/-- C10: when the `channels` field is absent the transformer substitutes 1,
and "Channels: 1" appears in the plot title. -/
theorem C10_channels_default (sr spp : Option ℚ) (dat : Option (List ℚ)) :
    channelsOf ⟨sr, spp, none, dat⟩ = 1 ∧
    ∃ pre, (plot_waveform ⟨sr, spp, none, dat⟩).title = pre ++ "Channels: 1</sub>" := by
  refine ⟨rfl,
    ⟨"Waveform Visualization<br><sub>Sample Rate: " ++ toString (sr.getD 44100 : ℚ)
      ++ " Hz | Samples per Pixel: " ++ toString (spp.getD 256 : ℚ) ++ " | ", ?_⟩⟩
  show "Waveform Visualization<br><sub>Sample Rate: " ++ toString (sr.getD 44100 : ℚ)
      ++ " Hz | Samples per Pixel: " ++ toString (spp.getD 256 : ℚ)
      ++ " | Channels: " ++ toString (1 : ℤ) ++ "</sub>" = _
  simp only [String.append_assoc]
  rfl

end Gowaveform
